import Mathlib

/-!
Verification of the HV battery discharge controller (ngi.py).

This file gives a shallow embedding of the discharge-session controller of
the repository: profile-step migration, SCPI measurement parsing, the
periodic update loop (energy integration, sample logging, stop-condition
evaluation and step advancement), connection-loss handling, the reconnect
and resume operations, and the persistence layer guards.  Numeric values
are modelled with rationals; fallible operations return Option; external
effects (socket writes, database writes, report generation, dialog input)
are modelled as explicit event logs and boolean oracles passed as
arguments.  All definitions are translated directly from the source.
-/

namespace HVDischarge

/-! ## String helpers

Python string primitives used by the source (upper, strip, replace) are
modelled over ASCII character lists so that every definition reduces in the
kernel. -/

/-- ASCII uppercase of one character, the effect of Python str.upper on the
ASCII inputs this program handles. -/
def upperChar (c : Char) : Char :=
  if 'a' ≤ c ∧ c ≤ 'z' then Char.ofNat (c.toNat - 32) else c

/-- ASCII uppercase of a string. -/
def strUpper (s : String) : String :=
  String.mk (s.data.map upperChar)

/-- Python str.strip removes leading and trailing whitespace. -/
def isSpaceChar (c : Char) : Bool :=
  c == ' ' || c == '\t' || c == '\n' || c == '\r' || c == '\x0b' || c == '\x0c'

/-- Strip whitespace from both ends of a character list (Python str.strip). -/
def trimChars (l : List Char) : List Char :=
  ((l.dropWhile isSpaceChar).reverse.dropWhile isSpaceChar).reverse

/-- Remove every non-overlapping occurrence of pat, scanning left to right:
Python str.replace with an empty replacement.  The fuel argument bounds the
recursion depth; each step consumes at least one character, so the length
of the list is always enough fuel. -/
def removeOccsAux (pat : List Char) : ℕ → List Char → List Char
  | 0, l => l
  | _, [] => []
  | fuel + 1, c :: cs =>
    if pat ≠ [] ∧ pat.isPrefixOf (c :: cs) then
      removeOccsAux pat fuel (cs.drop (pat.length - 1))
    else c :: removeOccsAux pat fuel cs

/-- Remove every non-overlapping occurrence of pat from l. -/
def removeOccs (pat l : List Char) : List Char :=
  removeOccsAux pat l.length l

/-! ## Measurement parsing (ngi.py, parse_measurement, fetch_measurements)

The numeric-literal acceptance of Python float() is modelled by an explicit
recursive-descent parser returning the exact rational value of the literal;
raising ValueError is modelled by returning none. -/

/-- Split off the maximal leading run of decimal digits. -/
def takeDigits : List Char → List Char × List Char
  | [] => ([], [])
  | c :: cs =>
    if c.isDigit then (c :: (takeDigits cs).1, (takeDigits cs).2)
    else ([], c :: cs)

/-- Value of a digit run read in base 10. -/
def digitsVal (l : List Char) : ℕ :=
  l.foldl (fun a c => 10 * a + (c.toNat - 48)) 0

/-- Consume one optional leading sign; the Bool is true for a minus. -/
def parseSign : List Char → Bool × List Char
  | [] => (false, [])
  | c :: cs =>
    if c = '-' then (true, cs)
    else if c = '+' then (false, cs)
    else (false, c :: cs)

/-- Parse the optional exponent tail of a float literal: empty input means
exponent 0; otherwise an exponent marker followed by an optional sign and a
nonempty digit run must consume the whole rest. -/
def parseExp : List Char → Option ℤ
  | [] => some 0
  | c :: cs =>
    if c = 'e' ∨ c = 'E' then
      let rest := (parseSign cs).2
      let ds := (takeDigits rest).1
      if ds ≠ [] ∧ (takeDigits rest).2 = [] then
        some (if (parseSign cs).1 then -(digitsVal ds : ℤ) else (digitsVal ds : ℤ))
      else none
    else none

/-- Powers of ten, written recursively so that they reduce in the kernel. -/
def pow10 : ℕ → ℚ
  | 0 => 1
  | n + 1 => 10 * pow10 n

/-- Exact rational value of a parsed float literal. -/
def floatVal (neg : Bool) (ip fp : List Char) (e : ℤ) : ℚ :=
  let mant : ℚ := (digitsVal ip : ℚ) + (digitsVal fp : ℚ) / pow10 fp.length
  let scale : ℚ := if 0 ≤ e then pow10 e.toNat else 1 / pow10 (-e).toNat
  (if neg then -mant else mant) * scale

/-- Python float() on a stripped string: optional sign, then either a digit
run with an optional fraction or a bare fraction, then an optional signed
exponent; anything else raises, modelled as none. -/
def pyFloat (l : List Char) : Option ℚ :=
  let neg := (parseSign l).1
  let rest1 := (parseSign l).2
  let ip := (takeDigits rest1).1
  let rest2 := (takeDigits rest1).2
  if rest2.take 1 = ['.'] then
    let rest3 := rest2.drop 1
    let fp := (takeDigits rest3).1
    if ip = [] ∧ fp = [] then none
    else (parseExp (takeDigits rest3).2).map (floatVal neg ip fp)
  else
    if ip = [] then none
    else (parseExp rest2).map (floatVal neg ip [])

/-- The character whitelist of parse_measurement, the Python expression
all of c in the string 0123456789.-+eE . -/
def allowedChar (c : Char) : Bool :=
  c.isDigit || c == '.' || c == '-' || c == '+' || c == 'e' || c == 'E'

/-- Number of occurrences of a character (Python str.count). -/
def countChar (l : List Char) (c : Char) : Nat :=
  (l.filter (fun d => d == c)).length

/-- The cleaned value string of parse_measurement: uppercase the response,
remove every occurrence of the uppercased unit, strip whitespace. -/
def clean_measurement (response unit : String) : List Char :=
  let r := response.data.map upperChar
  let u := unit.data.map upperChar
  trimChars (if u = [] then r else removeOccs u r)

/-- Translation of parse_measurement (ngi.py lines 1493-1505): a none
response stays none; the response is uppercased, the unit removed and the
result stripped; an empty remainder, a character outside the whitelist, or
more than one '.', '-' or '+' yields none; otherwise the result of float(),
with ValueError also yielding none. -/
def parse_measurement (response : Option String) (unit : String) : Option ℚ :=
  match response with
  | none => none
  | some r =>
    let v := clean_measurement r unit
    if v = [] ∨ ¬ (v.all allowedChar = true) ∨ 1 < countChar v '.' ∨
        1 < countChar v '-' ∨ 1 < countChar v '+' then none
    else pyFloat v

/-- Translation of fetch_measurements (lines 1450-1457): parse the three
query responses with units V, A, W; the whole read fails if any parse
fails. -/
def fetch_measurements (v_str c_str p_str : Option String) :
    Option (ℚ × ℚ × ℚ) :=
  match parse_measurement v_str "V", parse_measurement c_str "A",
      parse_measurement p_str "W" with
  | some v, some c, some p => some (v, c, p)
  | _, _, _ => none

/-- The parser the spec sentence describes, for comparison with the code:
strip one unit SUFFIX case-insensitively, strip whitespace, then accept
exactly the numeric grammar (optional sign, digits, at most one decimal
point, optional exponent marker). -/
def spec_strip_unit_suffix (response unit : String) : List Char :=
  let r := response.data.map upperChar
  let u := unit.data.map upperChar
  trimChars (if u ≠ [] ∧ u.isSuffixOf r then r.take (r.length - u.length) else r)

/-- The spec-worded parse: suffix stripping followed by the numeric
grammar. -/
def spec_parse_measurement (response : Option String) (unit : String) :
    Option ℚ :=
  match response with
  | none => none
  | some r => pyFloat (spec_strip_unit_suffix r unit)

/-! ## Profile step migration (ngi.py, migrate_profile_step)

A raw profile step as read from profiles.json: a loosely typed dictionary.
Fields that may be absent from the dictionary are Options. -/

structure RawStep where
  type : Option String := none
  value : Option ℚ := none
  stop_condition_type : Option String := none
  stop_condition_value : Option ℚ := none
  stop_voltage : Option ℚ := none
deriving DecidableEq, Repr

/-- Translation of migrate_profile_step (ngi.py lines 828-849): if the step
has no stop_condition_type key, derive one.  With a legacy stop_voltage key
the key is popped; a CV step gets stop condition current 0.1, any other step
gets stop condition voltage with the popped value.  Without a stop_voltage
key the defaults are current 0.1 for CV and voltage 0.0 otherwise. -/
def migrate_profile_step (step : RawStep) : RawStep :=
  if step.stop_condition_type.isSome then step
  else
    let stepType := strUpper (step.type.getD "CC")
    match step.stop_voltage with
    | some stopValue =>
      let step1 : RawStep := { step with stop_voltage := none }
      if stepType = "CV" then
        { step1 with stop_condition_type := some "current",
                     stop_condition_value := some (1/10) }
      else
        { step1 with stop_condition_type := some "voltage",
                     stop_condition_value := some stopValue }
    | none =>
      if stepType = "CV" then
        { step with stop_condition_type := some "current",
                    stop_condition_value := some (1/10) }
      else
        { step with stop_condition_type := some "voltage",
                    stop_condition_value := some 0 }

/-! ## Persistence layer (ngi.py, DatabaseManager)

The database is modelled as lists of rows.  SQL failures are modelled by a
boolean oracle argument: ok = false means the statement raised
sqlite3.Error, in which case the transaction rolls back and the state is
unchanged. -/

structure DischargeRow where
  id : Int
  registration_number : String
  profile_name : String
  mode : String
  ended : Bool := false
  total_energy_discharged : Option ℚ := none
  discharge_comment : Option String := none
deriving DecidableEq, Repr

structure DBState where
  nextId : Int := 1
  discharges : List DischargeRow := []
  data_points : List (Int × ℚ × ℚ × ℚ × ℚ) := []
deriving DecidableEq, Repr

/-- Translation of DatabaseManager.start_new_discharge (lines 178-193):
insert a new discharge row and return its id; on a database error return
the sentinel -1 with the database unchanged. -/
def start_new_discharge (db : DBState) (ok : Bool)
    (reg profile mode : String) : DBState × Int :=
  if ok then
    ({ db with nextId := db.nextId + 1,
               discharges := db.discharges ++
                 [{ id := db.nextId, registration_number := reg,
                    profile_name := profile, mode := mode }] }, db.nextId)
  else (db, -1)

/-- Translation of DatabaseManager.log_data_point (lines 195-207): a
negative discharge_id returns immediately; otherwise insert one row unless
the statement fails. -/
def log_data_point (db : DBState) (discharge_id : Int)
    (elapsed v c p : ℚ) (ok : Bool) : DBState :=
  if discharge_id < 0 then db
  else if ok then
    { db with data_points := db.data_points ++ [(discharge_id, elapsed, v, c, p)] }
  else db

/-- Translation of DatabaseManager.finish_discharge (lines 210-223): a
negative discharge_id returns immediately; otherwise update the matching
row with end time, energy and comment unless the statement fails. -/
def finish_discharge (db : DBState) (discharge_id : Int)
    (energy : ℚ) (comment : String) (ok : Bool) : DBState :=
  if discharge_id < 0 then db
  else if ok then
    { db with discharges := db.discharges.map (fun r =>
        if r.id = discharge_id then
          { r with ended := true, total_energy_discharged := some energy,
                   discharge_comment := some comment }
        else r) }
  else db

/-! ## Controller state machine (ngi.py, HVBatteryDischargeApp)

The controller state keeps the fields of the application object that the
discharge logic reads and writes, together with event logs recording the
calls made to collaborators: sentCmds logs socket writes, finishCalls logs
DatabaseManager.finish_discharge invocations (id, energy, comment),
stopCalls logs the generate_report argument of each stop_discharge call,
reportsGenerated counts generated certificates, dbPoints logs data-point
writes.  Socket and dialog outcomes are boolean and string arguments. -/

inductive StopCond
  | voltage
  | current
deriving DecidableEq, Repr

/-- A migrated profile step as used by the control loop.  The stop
condition type of the data model is voltage or current. -/
structure Step where
  type : String := "CC"
  value : ℚ := 0
  stopType : StopCond := StopCond.voltage
  stopValue : ℚ := 0
deriving DecidableEq, Repr

def defaultStep : Step := {}

structure AppState where
  running : Bool := false
  paused : Bool := false
  connected : Bool := false
  testMode : Bool := false
  currentStep : ℕ := 0
  profile : List Step := []
  energy : ℚ := 0
  startTime : Option ℚ := none
  lastTime : Option ℚ := none
  dataX : List ℚ := []
  dataV : List ℚ := []
  dataI : List ℚ := []
  dataP : List ℚ := []
  currentDischargeId : Int := -1
  simVoltage : ℚ := 400
  simCurrent : ℚ := 0
  simPower : ℚ := 0
  resumeAvailable : Bool := false
  reconnectJob : Bool := false
  autoReconnect : Bool := true
  sentCmds : List String := []
  finishCalls : List (Int × ℚ × String) := []
  stopCalls : List Bool := []
  reportsGenerated : ℕ := 0
  dbPoints : List (Int × ℚ × ℚ × ℚ × ℚ) := []
deriving DecidableEq, Repr

/-- Translation of schedule_reconnect (lines 1561-1576): do nothing in
test mode, when auto_reconnect is disabled, or when a reconnect job is
already pending; otherwise register the deferred reconnect job. -/
def schedule_reconnect (s : AppState) : AppState :=
  if s.testMode || !s.autoReconnect then s
  else if s.reconnectJob then s
  else { s with reconnectJob := true }

/-- Translation of handle_connection_loss (lines 811-827): a no-op in test
mode; otherwise mark disconnected, and if a discharge was running clear the
running and paused flags and finalize the open session (id not -1) with the
fixed comment, resetting the session id; finally invoke
schedule_reconnect.  No certificate is generated on this path. -/
def handle_connection_loss (s : AppState) : AppState :=
  if s.testMode then s
  else
    let s1 := { s with connected := false }
    let s2 :=
      if s1.running then
        let s1a := { s1 with running := false, paused := false }
        if s1a.currentDischargeId ≠ -1 then
          { s1a with
            finishCalls := s1a.finishCalls ++
              [(s1a.currentDischargeId, s1a.energy, "Connection Lost - Incomplete")],
            currentDischargeId := -1 }
        else s1a
      else s1
    schedule_reconnect s2

/-- Translation of scpi_command (lines 744-769): bypassed (returns true)
in test mode; false when not connected; otherwise the command line is
written to the socket, and a socket error (ok = false) triggers
handle_connection_loss and returns false. -/
def scpi_command (cmd : String) (ok : Bool) (s : AppState) : AppState × Bool :=
  if s.testMode then (s, true)
  else if !s.connected then (s, false)
  else
    let s1 := { s with sentCmds := s.sentCmds ++ [cmd] }
    if ok then (s1, true) else (handle_connection_loss s1, false)

/-- Translation of stop_discharge (lines 1257-1303): clear running and
paused; send INPut:STATe 0 best-effort when connected; finalize the open
session with the accumulated energy and the certificate comment (empty
unless a report was requested on a running stop); generate the certificate
only when the stop was a running stop with a report request, data exists
and the session id is valid; finally reset the session id.  The
generate_report argument of the call is logged in stopCalls. -/
def stop_discharge (genReport : Bool) (comment : String) (okStop : Bool)
    (s : AppState) : AppState :=
  let wasRunning := s.running
  let s1 := { s with running := false, paused := false }
  let s2 := if s1.connected then (scpi_command "INPut:STATe 0" okStop s1).1 else s1
  let finalComment := if wasRunning && genReport then comment else ""
  let s3 :=
    if s2.currentDischargeId ≠ -1 then
      { s2 with finishCalls := s2.finishCalls ++
          [(s2.currentDischargeId, s2.energy, finalComment)] }
    else s2
  let s4 :=
    if wasRunning = true ∧ genReport = true ∧ s3.dataX ≠ [] ∧
        s3.currentDischargeId ≠ -1 then
      { s3 with reportsGenerated := s3.reportsGenerated + 1 }
    else s3
  { s4 with currentDischargeId := -1, stopCalls := s4.stopCalls ++ [genReport] }

def funcCmd (t : String) : String := "INPut:FUNCtion " ++ t

def levelCmd (t : String) (v : ℚ) : String :=
  "STATic:" ++ t ++ ":HIGH:LEVel " ++ toString v

/-- Translation of apply_profile_step (lines 1306-1382): a no-op unless
running and not paused; past the last step the profile is complete and the
run stops with a report request; otherwise the step type selects the
function command followed by the level command; an unsupported type stops
the run without a report; in live mode a failure of either command stops
the run without a report. -/
def apply_profile_step (s : AppState) (ok1 ok2 okStop : Bool)
    (comment : String) : AppState :=
  if !s.running || s.paused then s
  else if s.profile.length ≤ s.currentStep then
    stop_discharge true comment okStop s
  else
    let step := s.profile.getD s.currentStep defaultStep
    let t := strUpper step.type
    if t = "CC" ∨ t = "CP" ∨ t = "CV" then
      let r1 := scpi_command (funcCmd t) ok1 s
      let r2 := scpi_command (levelCmd t step.value) ok2 r1.1
      if r1.2 && r2.2 then r2.1
      else if !r2.1.testMode then stop_discharge false comment okStop r2.1
      else r2.1
    else stop_discharge false comment okStop s

/-- The per-tick energy increment (lines 1409-1414): power times interval
over 3600000 when the interval is strictly between 0 and 5 seconds, zero
otherwise (a warning is logged for anomalous intervals). -/
def integrate (power delta : ℚ) : ℚ :=
  if 0 < delta ∧ delta < 5 then power * delta / 3600000 else 0

/-- The time and energy bookkeeping of one tick (lines 1405-1415): elapsed
total time is zero until start_time is set; the energy accumulates the
integrate increment when both start_time and last_time are set; last_time
always becomes the current time. -/
def integrate_energy (s : AppState) (p now : ℚ) : AppState × ℚ :=
  match s.startTime with
  | none => ({ s with lastTime := some now }, 0)
  | some st =>
    match s.lastTime with
    | none => ({ s with lastTime := some now }, now - st)
    | some lt =>
      ({ s with energy := s.energy + integrate p (now - lt),
                lastTime := some now }, now - st)

/-- Sample bookkeeping of one tick (lines 1417-1419): append to the
in-memory series and forward to the persistence layer, which ignores
negative session ids. -/
def log_sample (s : AppState) (et v i p : ℚ) : AppState :=
  let s1 := { s with dataX := s.dataX ++ [et], dataV := s.dataV ++ [v],
                     dataI := s.dataI ++ [i], dataP := s.dataP ++ [p] }
  if s1.currentDischargeId < 0 then s1
  else { s1 with dbPoints := s1.dbPoints ++ [(s1.currentDischargeId, et, v, i, p)] }

/-- The monitored value of the stop check (lines 1432-1437): the internal
simulated state in test mode, the acquired reading otherwise. -/
def monitored_value (s : AppState) (v i : ℚ) : StopCond → ℚ
  | StopCond.voltage => if s.testMode then s.simVoltage else v
  | StopCond.current => if s.testMode then s.simCurrent else i

/-- The stop-condition check of one tick (lines 1426-1442): when the
current step index is within the profile and the monitored value is at or
below the stop value, increment current_step by one and apply the new
step. -/
def check_step_advance (s : AppState) (v i : ℚ) (ok1 ok2 okStop : Bool)
    (comment : String) : AppState :=
  if s.currentStep < s.profile.length then
    let step := s.profile.getD s.currentStep defaultStep
    if monitored_value s v i step.stopType ≤ step.stopValue then
      apply_profile_step { s with currentStep := s.currentStep + 1 }
        ok1 ok2 okStop comment
    else s
  else s

/-- In test mode the acquisition stores the freshly simulated reading into
the simulated state fields (the simulation returns its own updated state,
lines 1460-1490); in live mode the state is untouched. -/
def acq_state (s : AppState) (v i p : ℚ) : AppState :=
  if s.testMode then { s with simVoltage := v, simCurrent := i, simPower := p }
  else s

/-- Translation of one run_update_loop tick (lines 1386-1447).  The
acquisition outcome (a reading triple or a failure) is an argument: in test
mode it is the simulated reading, in live mode the fetched one.  A failed
acquisition skips the tick in live mode and aborts without a report in test
mode.  A successful one updates the display state, integrates energy, logs
the sample and runs the stop check.  A disconnected live tick runs
handle_connection_loss. -/
def run_update_loop_tick (s : AppState) (now : ℚ) (acq : Option (ℚ × ℚ × ℚ))
    (ok1 ok2 okStop : Bool) (comment : String) : AppState :=
  if !s.running then s
  else if s.connected && !s.paused then
    match acq with
    | none =>
      if !s.testMode then s else stop_discharge false comment okStop s
    | some (v, i, p) =>
      let sAcq := acq_state s v i p
      let ie := integrate_energy sAcq p now
      let sLog := log_sample ie.1 ie.2 v i p
      check_step_advance sLog v i ok1 ok2 okStop comment
  else if !s.connected && !s.testMode then handle_connection_loss s
  else s

/-- One tick worth of external inputs. -/
structure TickInput where
  now : ℚ
  acq : Option (ℚ × ℚ × ℚ)
  ok1 : Bool := true
  ok2 : Bool := true
  okStop : Bool := true
  comment : String := ""

/-- A sequence of update-loop ticks. -/
def run_ticks (s : AppState) (inputs : List TickInput) : AppState :=
  inputs.foldl
    (fun st t => run_update_loop_tick st t.now t.acq t.ok1 t.ok2 t.okStop t.comment) s

/-- Translation of the deferred reconnect job body (lines 1566-1574): the
job handle is cleared; when still disconnected, a successful
connect_instrument marks connected and, when a profile is mid-run, sets
resume_available; a failed connect marks disconnected and reschedules. -/
def reconnect_tick (s : AppState) (connectOk : Bool) : AppState :=
  let s0 := { s with reconnectJob := false }
  if s0.connected then s0
  else if connectOk then
    let s1 := { s0 with connected := true }
    if s1.profile ≠ [] ∧ s1.currentStep < s1.profile.length then
      { s1 with resumeAvailable := true }
    else s1
  else schedule_reconnect { s0 with connected := false }

/-- Translation of resume_after_reconnect (lines 1586-1608): a no-op
without resume availability and a connection, or when already running; a
declined confirmation only clears resume availability; a confirmed resume
sets running, initializes the time baseline if absent, re-applies the
current step, and sends INPut:STATe 1, clearing running again if that
fails. -/
def resume_after_reconnect (s : AppState) (confirm : Bool) (now : ℚ)
    (ok1 ok2 okStop okState : Bool) (comment : String) : AppState :=
  if !s.resumeAvailable || !s.connected then s
  else if s.running then s
  else if !confirm then { s with resumeAvailable := false }
  else
    let s1 := { s with running := true, paused := false }
    let s2 :=
      if s1.startTime = none then
        { s1 with startTime := some now, lastTime := some now }
      else s1
    let s3 := apply_profile_step s2 ok1 ok2 okStop comment
    let r := scpi_command "INPut:STATe 1" okState s3
    if !r.2 then { r.1 with running := false }
    else { r.1 with resumeAvailable := false }

end HVDischarge

namespace HVDischarge

/-! ## Parsing lemmas -/

/-- Every character of a list is in the parse_measurement whitelist. -/
def allAllowed (l : List Char) : Prop :=
  ∀ x ∈ l, allowedChar x = true

theorem allAllowed_append {a b : List Char}
    (ha : allAllowed a) (hb : allAllowed b) : allAllowed (a ++ b) := by
  intro x hx
  rcases List.mem_append.mp hx with h | h
  · exact ha x h
  · exact hb x h

theorem allAllowed_digits {l : List Char}
    (h : ∀ c ∈ l, c.isDigit = true) : allAllowed l := by
  intro x hx
  simp [allowedChar, h x hx]

theorem takeDigits_append (l : List Char) :
    (takeDigits l).1 ++ (takeDigits l).2 = l := by
  induction l with
  | nil => rfl
  | cons c cs ih =>
    by_cases h : c.isDigit <;> simp [takeDigits, h, ih]

theorem takeDigits_all_digit (l : List Char) :
    ∀ c ∈ (takeDigits l).1, c.isDigit = true := by
  induction l with
  | nil =>
    intro c hc
    simp [takeDigits] at hc
  | cons d cs ih =>
    intro c hc
    by_cases h : d.isDigit
    · rw [takeDigits] at hc
      simp only [h, if_true] at hc
      rcases List.mem_cons.mp hc with rfl | hc2
      · exact h
      · exact ih c hc2
    · rw [takeDigits] at hc
      simp [h] at hc

theorem parseSign_sub (l : List Char) :
    l = (parseSign l).2 ∨
    ∃ c, (c = '-' ∨ c = '+') ∧ l = c :: (parseSign l).2 := by
  cases l with
  | nil => exact Or.inl rfl
  | cons c cs =>
    by_cases h1 : c = '-'
    · exact Or.inr ⟨c, Or.inl h1, by simp [parseSign, h1]⟩
    · by_cases h2 : c = '+'
      · exact Or.inr ⟨c, Or.inr h2, by simp [parseSign, h1, h2]⟩
      · exact Or.inl (by simp [parseSign, h1, h2])

theorem parseSign_allAllowed {l : List Char}
    (h : allAllowed (parseSign l).2) : allAllowed l := by
  rcases parseSign_sub l with heq | ⟨c, hc, heq⟩
  · rw [heq]; exact h
  · rw [heq]
    intro x hx
    rcases List.mem_cons.mp hx with rfl | hx2
    · rcases hc with rfl | rfl <;> rfl
    · exact h x hx2

theorem takeDigits_allAllowed {l : List Char}
    (h : allAllowed (takeDigits l).2) : allAllowed l := by
  have happ := takeDigits_append l
  rw [← happ]
  exact allAllowed_append (allAllowed_digits (takeDigits_all_digit l)) h

theorem parseExp_allAllowed {l : List Char} {e : ℤ}
    (h : parseExp l = some e) : allAllowed l := by
  cases l with
  | nil =>
    intro x hx
    simp at hx
  | cons c cs =>
    rw [parseExp] at h
    by_cases hc : c = 'e' ∨ c = 'E'
    · rw [if_pos hc] at h
      by_cases hds : (takeDigits (parseSign cs).2).1 ≠ [] ∧
          (takeDigits (parseSign cs).2).2 = []
      · have hcs : allAllowed cs := by
          refine parseSign_allAllowed (takeDigits_allAllowed ?_)
          rw [hds.2]
          intro x hx
          simp at hx
        intro x hx
        rcases List.mem_cons.mp hx with rfl | hx2
        · rcases hc with rfl | rfl <;> rfl
        · exact hcs x hx2
      · rw [if_neg hds] at h
        cases h
    · rw [if_neg hc] at h
      cases h

theorem pyFloat_nil : pyFloat [] = none := rfl

theorem pyFloat_allAllowed {l : List Char} {q : ℚ}
    (h : pyFloat l = some q) : allAllowed l := by
  rw [pyFloat] at h
  refine parseSign_allAllowed (takeDigits_allAllowed ?_)
  by_cases hdot : (takeDigits (parseSign l).2).2.take 1 = ['.']
  · rw [if_pos hdot] at h
    by_cases hemp : (takeDigits (parseSign l).2).1 = [] ∧
        (takeDigits ((takeDigits (parseSign l).2).2.drop 1)).1 = []
    · rw [if_pos hemp] at h
      cases h
    · rw [if_neg hemp] at h
      rcases Option.map_eq_some'.mp h with ⟨e, he, _⟩
      have hrest3 : allAllowed ((takeDigits (parseSign l).2).2.drop 1) :=
        takeDigits_allAllowed (parseExp_allAllowed he)
      have hshape : (takeDigits (parseSign l).2).2 =
          '.' :: (takeDigits (parseSign l).2).2.drop 1 := by
        cases hl : (takeDigits (parseSign l).2).2 with
        | nil => rw [hl] at hdot; simp at hdot
        | cons a as =>
          rw [hl] at hdot
          simp [List.take] at hdot
          simp [hdot]
      rw [hshape]
      intro x hx
      rcases List.mem_cons.mp hx with rfl | hx2
      · rfl
      · exact hrest3 x hx2
  · rw [if_neg hdot] at h
    by_cases hemp : (takeDigits (parseSign l).2).1 = []
    · rw [if_pos hemp] at h
      cases h
    · rw [if_neg hemp] at h
      rcases Option.map_eq_some'.mp h with ⟨e, he, _⟩
      exact parseExp_allAllowed he

theorem pyFloat_ne_nil {l : List Char} {q : ℚ}
    (h : pyFloat l = some q) : l ≠ [] := by
  intro hl
  rw [hl, pyFloat_nil] at h
  cases h

/-! ## Controller lemmas

Shape lemmas: each operation only rewrites a known set of fields, so the
result is a field update of its argument. -/

theorem schedule_reconnect_shape (s : AppState) :
    schedule_reconnect s = s ∨
    schedule_reconnect s = { s with reconnectJob := true } := by
  unfold schedule_reconnect
  split
  · exact Or.inl rfl
  · split
    · exact Or.inl rfl
    · exact Or.inr rfl

theorem handle_connection_loss_shape (s : AppState) :
    ∃ cn rn pd fc di rj, handle_connection_loss s =
      { s with connected := cn, running := rn, paused := pd,
               finishCalls := fc, currentDischargeId := di,
               reconnectJob := rj } := by
  unfold handle_connection_loss
  split
  · exact ⟨s.connected, s.running, s.paused, s.finishCalls,
      s.currentDischargeId, s.reconnectJob, rfl⟩
  · dsimp only
    split
    · split
      · rcases schedule_reconnect_shape
            { s with connected := false, running := false, paused := false,
                     finishCalls := s.finishCalls ++
                       [(s.currentDischargeId, s.energy,
                         "Connection Lost - Incomplete")],
                     currentDischargeId := -1 } with h | h <;>
          rw [h]
        · exact ⟨_, _, _, _, _, _, rfl⟩
        · exact ⟨_, _, _, _, _, _, rfl⟩
      · rcases schedule_reconnect_shape
            { s with connected := false, running := false,
                     paused := false } with h | h <;>
          rw [h]
        · exact ⟨_, _, _, _, _, _, rfl⟩
        · exact ⟨_, _, _, _, _, _, rfl⟩
    · rcases schedule_reconnect_shape { s with connected := false } with h | h <;>
        rw [h]
      · exact ⟨_, _, _, _, _, _, rfl⟩
      · exact ⟨_, _, _, _, _, _, rfl⟩

theorem schedule_reconnect_running (s : AppState) :
    (schedule_reconnect s).running = s.running := by
  rcases schedule_reconnect_shape s with h | h <;> rw [h]

theorem schedule_reconnect_paused (s : AppState) :
    (schedule_reconnect s).paused = s.paused := by
  rcases schedule_reconnect_shape s with h | h <;> rw [h]

theorem handle_connection_loss_running (s : AppState)
    (h : s.running = false) : (handle_connection_loss s).running = false := by
  unfold handle_connection_loss
  split
  · exact h
  · dsimp only
    rw [schedule_reconnect_running]
    split
    · split <;> rfl
    · exact h

theorem scpi_command_shape (cmd : String) (ok : Bool) (s : AppState) :
    ∃ cn rn pd fc di rj sc, (scpi_command cmd ok s).1 =
      { s with connected := cn, running := rn, paused := pd,
               finishCalls := fc, currentDischargeId := di,
               reconnectJob := rj, sentCmds := sc } := by
  unfold scpi_command
  split
  · exact ⟨_, _, _, _, _, _, _, rfl⟩
  · split
    · exact ⟨_, _, _, _, _, _, _, rfl⟩
    · dsimp only
      split
      · exact ⟨_, _, _, _, _, _, _, rfl⟩
      · obtain ⟨cn, rn, pd, fc, di, rj, h⟩ :=
          handle_connection_loss_shape { s with sentCmds := s.sentCmds ++ [cmd] }
        exact ⟨cn, rn, pd, fc, di, rj, _, by rw [h]⟩

theorem scpi_command_running (cmd : String) (ok : Bool) (s : AppState)
    (h : s.running = false) : ((scpi_command cmd ok s).1).running = false := by
  unfold scpi_command
  split
  · exact h
  · split
    · exact h
    · dsimp only
      split
      · exact h
      · exact handle_connection_loss_running _ h

theorem handle_connection_loss_paused (s : AppState)
    (h : s.paused = false) : (handle_connection_loss s).paused = false := by
  unfold handle_connection_loss
  split
  · exact h
  · dsimp only
    rw [schedule_reconnect_paused]
    split
    · split <;> rfl
    · exact h

theorem scpi_command_paused (cmd : String) (ok : Bool) (s : AppState)
    (h : s.paused = false) : ((scpi_command cmd ok s).1).paused = false := by
  unfold scpi_command
  split
  · exact h
  · split
    · exact h
    · dsimp only
      split
      · exact h
      · exact handle_connection_loss_paused _ h

theorem scpi_command_test (cmd : String) (ok : Bool) (s : AppState)
    (htm : s.testMode = true) : scpi_command cmd ok s = (s, true) := by
  unfold scpi_command
  rw [if_pos htm]

theorem scpi_command_live (cmd : String) (ok : Bool) (s : AppState)
    (htm : s.testMode = false) (hc : s.connected = true) :
    scpi_command cmd ok s =
      if ok then ({ s with sentCmds := s.sentCmds ++ [cmd] }, true)
      else (handle_connection_loss { s with sentCmds := s.sentCmds ++ [cmd] },
            false) := by
  unfold scpi_command
  rw [htm, if_neg (by simp), hc]
  simp only [Bool.not_true, Bool.false_eq_true, if_false]

theorem stop_discharge_proj (g : Bool) (c : String) (ok : Bool) (s : AppState) :
    (stop_discharge g c ok s).running = false ∧
    (stop_discharge g c ok s).paused = false ∧
    (stop_discharge g c ok s).energy = s.energy ∧
    (stop_discharge g c ok s).currentStep = s.currentStep ∧
    (stop_discharge g c ok s).profile = s.profile ∧
    (stop_discharge g c ok s).testMode = s.testMode ∧
    (stop_discharge g c ok s).currentDischargeId = -1 ∧
    (stop_discharge g c ok s).stopCalls = s.stopCalls ++ [g] ∧
    (g = false → (stop_discharge g c ok s).reportsGenerated = s.reportsGenerated) := by
  unfold stop_discharge
  dsimp only
  by_cases hc : ({ s with running := false, paused := false } : AppState).connected
  case pos =>
    rw [if_pos hc]
    obtain ⟨cn, rn, pd, fc, di, rj, sc, h2⟩ :=
      scpi_command_shape "INPut:STATe 0" ok
        { s with running := false, paused := false }
    have hrn : rn = false := by
      have := scpi_command_running "INPut:STATe 0" ok
        { s with running := false, paused := false } rfl
      rw [h2] at this
      exact this
    have hpd : pd = false := by
      have := scpi_command_paused "INPut:STATe 0" ok
        { s with running := false, paused := false } rfl
      rw [h2] at this
      exact this
    rw [h2, hrn, hpd]
    split <;> split <;> (try simp_all) <;>
      (try (by_cases hd : s.dataX = [] <;> simp_all)) <;>
      (try (have hneg : ¬ (s.running = true ∧ g = true) := fun hh => by simp_all
            simp [hneg]))
  case neg =>
    rw [if_neg hc]
    split <;> split <;> (try simp_all) <;>
      (try (by_cases hd : s.dataX = [] <;> simp_all)) <;>
      (try (have hneg : ¬ (s.running = true ∧ g = true) := fun hh => by simp_all
            simp [hneg]))

/-- Projection facts extracted from the shape lemmas. -/
theorem scpi_command_energy (cmd : String) (ok : Bool) (s : AppState) :
    ((scpi_command cmd ok s).1).energy = s.energy := by
  obtain ⟨cn, rn, pd, fc, di, rj, sc, h⟩ := scpi_command_shape cmd ok s
  rw [h]

theorem scpi_command_currentStep (cmd : String) (ok : Bool) (s : AppState) :
    ((scpi_command cmd ok s).1).currentStep = s.currentStep := by
  obtain ⟨cn, rn, pd, fc, di, rj, sc, h⟩ := scpi_command_shape cmd ok s
  rw [h]

theorem handle_connection_loss_energy (s : AppState) :
    (handle_connection_loss s).energy = s.energy := by
  obtain ⟨cn, rn, pd, fc, di, rj, h⟩ := handle_connection_loss_shape s
  rw [h]

theorem handle_connection_loss_currentStep (s : AppState) :
    (handle_connection_loss s).currentStep = s.currentStep := by
  obtain ⟨cn, rn, pd, fc, di, rj, h⟩ := handle_connection_loss_shape s
  rw [h]

theorem stop_discharge_energy (g : Bool) (c : String) (ok : Bool) (s : AppState) :
    (stop_discharge g c ok s).energy = s.energy :=
  (stop_discharge_proj g c ok s).2.2.1

theorem stop_discharge_currentStep (g : Bool) (c : String) (ok : Bool)
    (s : AppState) : (stop_discharge g c ok s).currentStep = s.currentStep :=
  (stop_discharge_proj g c ok s).2.2.2.1

theorem stop_discharge_running (g : Bool) (c : String) (ok : Bool)
    (s : AppState) : (stop_discharge g c ok s).running = false :=
  (stop_discharge_proj g c ok s).1

theorem apply_profile_step_energy (s : AppState) (ok1 ok2 okStop : Bool)
    (cm : String) : (apply_profile_step s ok1 ok2 okStop cm).energy = s.energy := by
  unfold apply_profile_step
  split
  · rfl
  · split
    · simp [stop_discharge_energy]
    · dsimp only
      split
      · split
        · simp [scpi_command_energy]
        · split
          · simp [stop_discharge_energy, scpi_command_energy]
          · simp [scpi_command_energy]
      · simp [stop_discharge_energy]

theorem apply_profile_step_currentStep (s : AppState) (ok1 ok2 okStop : Bool)
    (cm : String) :
    (apply_profile_step s ok1 ok2 okStop cm).currentStep = s.currentStep := by
  unfold apply_profile_step
  split
  · rfl
  · split
    · simp [stop_discharge_currentStep]
    · dsimp only
      split
      · split
        · simp [scpi_command_currentStep]
        · split
          · simp [stop_discharge_currentStep, scpi_command_currentStep]
          · simp [scpi_command_currentStep]
      · simp [stop_discharge_currentStep]

theorem integrate_nonneg (p d : ℚ) (hp : 0 ≤ p) : 0 ≤ integrate p d := by
  unfold integrate
  split
  · next h =>
    exact div_nonneg (mul_nonneg hp h.1.le) (by norm_num)
  · exact le_refl 0

theorem integrate_invalid (p d : ℚ) (h : ¬ (0 < d ∧ d < 5)) :
    integrate p d = 0 := by
  unfold integrate
  rw [if_neg h]

/-- When both time references are set, one tick adds exactly the integrate
increment and reports the elapsed total. -/
theorem integrate_energy_full (s : AppState) (p now st lt : ℚ)
    (hst : s.startTime = some st) (hlt : s.lastTime = some lt) :
    integrate_energy s p now =
      ({ s with energy := s.energy + integrate p (now - lt),
                lastTime := some now }, now - st) := by
  unfold integrate_energy
  rw [hst, hlt]

/-- In every case the tick energy bookkeeping only rewrites energy and
last_time, and the energy never decreases for a non-negative power. -/
theorem integrate_energy_shape (s : AppState) (p now : ℚ) :
    ∃ e, (integrate_energy s p now).1 =
        { s with energy := e, lastTime := some now } ∧
      (0 ≤ p → s.energy ≤ e) := by
  unfold integrate_energy
  cases hst : s.startTime with
  | none => exact ⟨s.energy, rfl, fun _ => le_refl _⟩
  | some st =>
    cases hlt : s.lastTime with
    | none => exact ⟨s.energy, rfl, fun _ => le_refl _⟩
    | some lt =>
      refine ⟨s.energy + integrate p (now - lt), rfl, fun hp => ?_⟩
      have := integrate_nonneg p (now - lt) hp
      linarith

/-- Sample logging only appends to the series and the data-point log. -/
theorem log_sample_shape (s : AppState) (et v i p : ℚ) :
    ∃ db, log_sample s et v i p =
      { s with dataX := s.dataX ++ [et], dataV := s.dataV ++ [v],
               dataI := s.dataI ++ [i], dataP := s.dataP ++ [p],
               dbPoints := db } := by
  unfold log_sample
  dsimp only
  split
  · exact ⟨s.dbPoints, rfl⟩
  · exact ⟨_, rfl⟩

theorem check_step_advance_energy (s : AppState) (v i : ℚ)
    (ok1 ok2 okStop : Bool) (cm : String) :
    (check_step_advance s v i ok1 ok2 okStop cm).energy = s.energy := by
  unfold check_step_advance
  split
  · dsimp only
    split
    · simp [apply_profile_step_energy]
    · rfl
  · rfl

/-- The stop check increments current_step by exactly one when the
monitored value meets the stop condition and leaves it unchanged
otherwise. -/
theorem check_step_advance_currentStep (s : AppState) (v i : ℚ)
    (ok1 ok2 okStop : Bool) (cm : String)
    (hk : s.currentStep < s.profile.length) :
    (check_step_advance s v i ok1 ok2 okStop cm).currentStep =
      if monitored_value s v i
          (s.profile.getD s.currentStep defaultStep).stopType
          ≤ (s.profile.getD s.currentStep defaultStep).stopValue then
        s.currentStep + 1
      else s.currentStep := by
  unfold check_step_advance
  rw [if_pos hk]
  dsimp only
  by_cases hm : monitored_value s v i
      (s.profile.getD s.currentStep defaultStep).stopType ≤
      (s.profile.getD s.currentStep defaultStep).stopValue
  · rw [if_pos hm, if_pos hm]
    simp [apply_profile_step_currentStep]
  · rw [if_neg hm, if_neg hm]

/-- The monitored value only depends on the test flag and the simulated
state. -/
theorem monitored_value_congr (s s2 : AppState) (v i : ℚ) (sc : StopCond)
    (htm : s.testMode = s2.testMode) (hv : s.simVoltage = s2.simVoltage)
    (hi : s.simCurrent = s2.simCurrent) :
    monitored_value s v i sc = monitored_value s2 v i sc := by
  cases sc <;> simp [monitored_value, htm, hv, hi]

theorem handle_connection_loss_reportsGenerated (s : AppState) :
    (handle_connection_loss s).reportsGenerated = s.reportsGenerated := by
  obtain ⟨cn, rn, pd, fc, di, rj, h⟩ := handle_connection_loss_shape s
  rw [h]

theorem handle_connection_loss_stopCalls (s : AppState) :
    (handle_connection_loss s).stopCalls = s.stopCalls := by
  obtain ⟨cn, rn, pd, fc, di, rj, h⟩ := handle_connection_loss_shape s
  rw [h]

theorem handle_connection_loss_testMode (s : AppState) :
    (handle_connection_loss s).testMode = s.testMode := by
  obtain ⟨cn, rn, pd, fc, di, rj, h⟩ := handle_connection_loss_shape s
  rw [h]

theorem handle_connection_loss_connected (s : AppState)
    (htm : s.testMode = false) : (handle_connection_loss s).connected = false := by
  unfold handle_connection_loss
  rw [htm]
  simp only [Bool.false_eq_true, if_false]
  have hsc : ∀ s2 : AppState, (schedule_reconnect s2).connected = s2.connected := by
    intro s2
    rcases schedule_reconnect_shape s2 with h | h <;> rw [h]
  split
  · split <;> rw [hsc]
  · rw [hsc]

theorem scpi_command_stopCalls (cmd : String) (ok : Bool) (s : AppState) :
    ((scpi_command cmd ok s).1).stopCalls = s.stopCalls := by
  obtain ⟨cn, rn, pd, fc, di, rj, sc, h⟩ := scpi_command_shape cmd ok s
  rw [h]

theorem scpi_command_reportsGenerated (cmd : String) (ok : Bool) (s : AppState) :
    ((scpi_command cmd ok s).1).reportsGenerated = s.reportsGenerated := by
  obtain ⟨cn, rn, pd, fc, di, rj, sc, h⟩ := scpi_command_shape cmd ok s
  rw [h]

theorem scpi_command_disconnected (cmd : String) (ok : Bool) (s : AppState)
    (htm : s.testMode = false) (hc : s.connected = false) :
    scpi_command cmd ok s = (s, false) := by
  unfold scpi_command
  rw [htm, hc]
  simp

theorem stop_discharge_stopCalls (g : Bool) (c : String) (ok : Bool)
    (s : AppState) : (stop_discharge g c ok s).stopCalls = s.stopCalls ++ [g] :=
  (stop_discharge_proj g c ok s).2.2.2.2.2.2.2.1

theorem stop_discharge_reports_of_false (c : String) (ok : Bool) (s : AppState) :
    (stop_discharge false c ok s).reportsGenerated = s.reportsGenerated :=
  (stop_discharge_proj false c ok s).2.2.2.2.2.2.2.2 rfl

/-- The acquisition step only rewrites the simulated state fields. -/
theorem acq_state_proj (s : AppState) (v i p : ℚ) :
    (acq_state s v i p).energy = s.energy ∧
    (acq_state s v i p).currentStep = s.currentStep ∧
    (acq_state s v i p).profile = s.profile ∧
    (acq_state s v i p).testMode = s.testMode ∧
    (acq_state s v i p).startTime = s.startTime ∧
    (acq_state s v i p).lastTime = s.lastTime ∧
    (acq_state s v i p).running = s.running := by
  unfold acq_state
  split <;> exact ⟨rfl, rfl, rfl, rfl, rfl, rfl, rfl⟩

/-- A running, connected, unpaused tick with a successful acquisition is
acquisition, energy integration, sample logging and the stop check. -/
theorem tick_some_eq (s : AppState) (now v i p : ℚ) (ok1 ok2 okStop : Bool)
    (cm : String) (hr : s.running = true) (hc : s.connected = true)
    (hpz : s.paused = false) :
    run_update_loop_tick s now (some (v, i, p)) ok1 ok2 okStop cm =
      check_step_advance
        (log_sample (integrate_energy (acq_state s v i p) p now).1
          (integrate_energy (acq_state s v i p) p now).2 v i p)
        v i ok1 ok2 okStop cm := by
  unfold run_update_loop_tick
  rw [hr, hc, hpz]
  simp

/-- C5 counterexample: the code does not strip only a unit SUFFIX, it
removes every occurrence of the unit letter, and its sign-count guard
rejects grammatical literals with a signed exponent after a leading sign.
For the response V3.5 with unit V the suffix-stripped content V3.5 does not
match the numeric grammar, yet parse_measurement returns 3.5; for the
response -1.5E-2 V the suffix-stripped content -1.5E-2 is a grammatical
float literal, yet parse_measurement returns none. -/
theorem parse_measurement_claim_cex :
    parse_measurement (some "V3.5") "V" = some (7/2) ∧
    spec_parse_measurement (some "V3.5") "V" = none ∧
    parse_measurement (some "-1.5E-2 V") "V" = none ∧
    spec_parse_measurement (some "-1.5E-2 V") "V" = some (-(3/200)) := by
  have h1 : clean_measurement "V3.5" "V" = ['3', '.', '5'] := by decide
  have h2 : clean_measurement "-1.5E-2 V" "V" =
      ['-', '1', '.', '5', 'E', '-', '2'] := by decide
  have h3 : spec_strip_unit_suffix "V3.5" "V" = ['V', '3', '.', '5'] := by decide
  have h4 : spec_strip_unit_suffix "-1.5E-2 V" "V" =
      ['-', '1', '.', '5', 'E', '-', '2'] := by decide
  refine ⟨?_, ?_, ?_, ?_⟩
  · rw [parse_measurement]
    rw [h1, if_neg (by decide)]
    have hp : parseSign ['3', '.', '5'] = (false, ['3', '.', '5']) := by decide
    have ht : takeDigits ['3', '.', '5'] = (['3'], ['.', '5']) := by decide
    have ht2 : takeDigits ['5'] = (['5'], []) := by decide
    have hpe : parseExp ([] : List Char) = some 0 := rfl
    have d3 : ('3'.toNat - 48) = 3 := by decide
    have d5 : ('5'.toNat - 48) = 5 := by decide
    rw [pyFloat]
    norm_num [hp, ht, ht2, hpe, d3, d5, floatVal, digitsVal, pow10]
  · rw [spec_parse_measurement, h3]
    have hp : parseSign ['V', '3', '.', '5'] = (false, ['V', '3', '.', '5']) := by
      decide
    have ht : takeDigits ['V', '3', '.', '5'] = ([], ['V', '3', '.', '5']) := by
      decide
    rw [pyFloat]
    norm_num [hp, ht]
    intro h
    exact absurd h (by decide)
  · rw [parse_measurement]
    rw [h2, if_pos (by decide)]
  · rw [spec_parse_measurement, h4]
    have hp : parseSign ['-', '1', '.', '5', 'E', '-', '2'] =
        (true, ['1', '.', '5', 'E', '-', '2']) := by decide
    have ht : takeDigits ['1', '.', '5', 'E', '-', '2'] =
        (['1'], ['.', '5', 'E', '-', '2']) := by decide
    have ht2 : takeDigits ['5', 'E', '-', '2'] = (['5'], ['E', '-', '2']) := by
      decide
    have he : parseExp ['E', '-', '2'] = some (-2) := by decide
    have d1 : ('1'.toNat - 48) = 1 := by decide
    have d5 : ('5'.toNat - 48) = 5 := by decide
    rw [pyFloat]
    norm_num [hp, ht, ht2, he, d1, d5, floatVal, digitsVal, pow10]

/-- C5 amended: parse_measurement uppercases the response, removes every
occurrence of the uppercased unit anywhere in it, strips whitespace, and
returns the parsed value exactly when the remainder contains at most one
dot, at most one minus and at most one plus, and is accepted by the float
literal grammar (optional sign, digits with at most one decimal point,
optional exponent marker with optional sign); every other input, and a
missing response, give none — the parser is a total function, so it never
raises. -/
theorem parse_measurement_amended (r unit : String) (q : ℚ) :
    (parse_measurement (some r) unit = some q ↔
      countChar (clean_measurement r unit) '.' ≤ 1 ∧
      countChar (clean_measurement r unit) '-' ≤ 1 ∧
      countChar (clean_measurement r unit) '+' ≤ 1 ∧
      pyFloat (clean_measurement r unit) = some q) ∧
    parse_measurement none unit = none := by
  constructor
  · rw [parse_measurement]
    constructor
    · intro h
      by_cases hg : clean_measurement r unit = [] ∨
          ¬ ((clean_measurement r unit).all allowedChar = true) ∨
          1 < countChar (clean_measurement r unit) '.' ∨
          1 < countChar (clean_measurement r unit) '-' ∨
          1 < countChar (clean_measurement r unit) '+'
      · rw [if_pos hg] at h
        cases h
      · rw [if_neg hg] at h
        push_neg at hg
        exact ⟨hg.2.2.1, hg.2.2.2.1, hg.2.2.2.2, h⟩
    · rintro ⟨h1, h2, h3, h4⟩
      have hne := pyFloat_ne_nil h4
      have hall : (clean_measurement r unit).all allowedChar = true := by
        rw [List.all_eq_true]
        exact fun x hx => pyFloat_allAllowed h4 x hx
      rw [if_neg ?_]
      · exact h4
      · push_neg
        exact ⟨hne, hall, by omega, by omega, by omega⟩
  · rfl

/-! ## Claim theorems for the update loop -/

/-- C1: on a running, unpaused, connected tick with a successfully
acquired reading, the controller advances from step i to step i plus one
exactly when the monitored value is at or below the stop condition value
of the current step, and otherwise current_step is unchanged (no index is
ever skipped).  The monitored value is taken from the post-acquisition
state: the internal simulated state in test mode (which the acquisition
has just set to the simulated reading), the acquired voltage or current in
live mode; the last two conjuncts show it equals the acquired voltage for
a voltage stop condition and the acquired current for a current stop
condition, in both modes. -/
theorem log_sample_proj (s : AppState) (et v i p : ℚ) :
    (log_sample s et v i p).currentStep = s.currentStep ∧
    (log_sample s et v i p).profile = s.profile ∧
    (log_sample s et v i p).testMode = s.testMode ∧
    (log_sample s et v i p).simVoltage = s.simVoltage ∧
    (log_sample s et v i p).simCurrent = s.simCurrent ∧
    (log_sample s et v i p).energy = s.energy := by
  obtain ⟨db, h⟩ := log_sample_shape s et v i p
  rw [h]
  exact ⟨rfl, rfl, rfl, rfl, rfl, rfl⟩

theorem integrate_energy_proj (s : AppState) (p now : ℚ) :
    (integrate_energy s p now).1.currentStep = s.currentStep ∧
    (integrate_energy s p now).1.profile = s.profile ∧
    (integrate_energy s p now).1.testMode = s.testMode ∧
    (integrate_energy s p now).1.simVoltage = s.simVoltage ∧
    (integrate_energy s p now).1.simCurrent = s.simCurrent := by
  obtain ⟨e, h, _⟩ := integrate_energy_shape s p now
  rw [h]
  exact ⟨rfl, rfl, rfl, rfl, rfl⟩

theorem step_advance_exactly_on_stop (s : AppState) (now v i p : ℚ)
    (ok1 ok2 okStop : Bool) (cm : String)
    (hr : s.running = true) (hc : s.connected = true) (hpz : s.paused = false)
    (hk : s.currentStep < s.profile.length) :
    ((run_update_loop_tick s now (some (v, i, p)) ok1 ok2 okStop cm).currentStep
        = s.currentStep + 1 ↔
      monitored_value (acq_state s v i p) v i
          (s.profile.getD s.currentStep defaultStep).stopType
        ≤ (s.profile.getD s.currentStep defaultStep).stopValue) ∧
    (¬ monitored_value (acq_state s v i p) v i
          (s.profile.getD s.currentStep defaultStep).stopType
        ≤ (s.profile.getD s.currentStep defaultStep).stopValue →
      (run_update_loop_tick s now (some (v, i, p)) ok1 ok2 okStop cm).currentStep
        = s.currentStep) ∧
    monitored_value (acq_state s v i p) v i StopCond.voltage = v ∧
    monitored_value (acq_state s v i p) v i StopCond.current = i := by
  have hA := acq_state_proj s v i p
  have hI := integrate_energy_proj (acq_state s v i p) p now
  have hL := log_sample_proj (integrate_energy (acq_state s v i p) p now).1
    (integrate_energy (acq_state s v i p) p now).2 v i p
  have hstep : (run_update_loop_tick s now (some (v, i, p)) ok1 ok2 okStop
      cm).currentStep =
      if monitored_value (acq_state s v i p) v i
          (s.profile.getD s.currentStep defaultStep).stopType
          ≤ (s.profile.getD s.currentStep defaultStep).stopValue then
        s.currentStep + 1
      else s.currentStep := by
    rw [tick_some_eq s now v i p ok1 ok2 okStop cm hr hc hpz]
    have hk2 : (log_sample (integrate_energy (acq_state s v i p) p now).1
        (integrate_energy (acq_state s v i p) p now).2 v i p).currentStep <
        (log_sample (integrate_energy (acq_state s v i p) p now).1
        (integrate_energy (acq_state s v i p) p now).2 v i p).profile.length := by
      rw [hL.1, hL.2.1, hI.1, hI.2.1, hA.2.1, hA.2.2.1]
      exact hk
    rw [check_step_advance_currentStep _ v i ok1 ok2 okStop cm hk2]
    rw [hL.1, hL.2.1, hI.1, hI.2.1, hA.2.1, hA.2.2.1]
    have hmv : monitored_value
        (log_sample (integrate_energy (acq_state s v i p) p now).1
          (integrate_energy (acq_state s v i p) p now).2 v i p) v i
        (s.profile.getD s.currentStep defaultStep).stopType =
        monitored_value (acq_state s v i p) v i
          (s.profile.getD s.currentStep defaultStep).stopType :=
      monitored_value_congr _ _ v i _
        (by rw [hL.2.2.1, hI.2.2.1]) (by rw [hL.2.2.2.1, hI.2.2.2.1])
        (by rw [hL.2.2.2.2.1, hI.2.2.2.2])
    rw [hmv]
  refine ⟨?_, ?_, ?_, ?_⟩
  · rw [hstep]
    by_cases hm : monitored_value (acq_state s v i p) v i
        (s.profile.getD s.currentStep defaultStep).stopType
        ≤ (s.profile.getD s.currentStep defaultStep).stopValue
    · rw [if_pos hm]
      exact ⟨fun _ => hm, fun _ => rfl⟩
    · rw [if_neg hm]
      constructor
      · intro h
        exact absurd h (by omega)
      · intro h
        exact absurd h hm
  · intro hm
    rw [hstep, if_neg hm]
  · by_cases htm : s.testMode <;> simp [monitored_value, acq_state, htm]
  · by_cases htm : s.testMode <;> simp [monitored_value, acq_state, htm]

/-- Witness for C1: a live tick at 250 V with stop threshold 300 V
advances from step 0 to step 1; at 400 V it does not advance. -/
theorem step_advance_exactly_on_stop_witness :
    (run_update_loop_tick
        { running := true, connected := true,
          profile := [{ type := "CC", value := 10, stopValue := 300 }],
          startTime := some 0, lastTime := some 0 }
        1 (some (250, 10, 2500)) true true true "").currentStep = 1 ∧
    (run_update_loop_tick
        { running := true, connected := true,
          profile := [{ type := "CC", value := 10, stopValue := 300 }],
          startTime := some 0, lastTime := some 0 }
        1 (some (400, 10, 4000)) true true true "").currentStep = 0 := by
  constructor
  · exact (step_advance_exactly_on_stop _ 1 250 10 2500 true true true ""
      rfl rfl rfl (by decide)).1.mpr
      (by norm_num [monitored_value, acq_state])
  · exact (step_advance_exactly_on_stop _ 1 400 10 4000 true true true ""
      rfl rfl rfl (by decide)).2.1
      (by norm_num [monitored_value, acq_state])

/-- C2: on a running, unpaused, connected tick with a reading, with both
time references set, the accumulated energy grows by exactly the
integrate increment for the interval since the previous tick; integrate
adds power times delta over 3600000 exactly when 0 < delta < 5, and is
exactly zero otherwise; for power 1000 W and delta 1 s the increment is
0.0002778 kWh within 1e-6. -/
theorem energy_integration_guarded (s : AppState) (now v i p st lt : ℚ)
    (ok1 ok2 okStop : Bool) (cm : String)
    (hr : s.running = true) (hc : s.connected = true) (hpz : s.paused = false)
    (hst : s.startTime = some st) (hlt : s.lastTime = some lt) :
    (run_update_loop_tick s now (some (v, i, p)) ok1 ok2 okStop cm).energy
        = s.energy + integrate p (now - lt) ∧
    (∀ pw d : ℚ, 0 < d → d < 5 → integrate pw d = pw * d / 3600000) ∧
    (∀ pw d : ℚ, ¬ (0 < d ∧ d < 5) → integrate pw d = 0) ∧
    |integrate 1000 1 - 2778 / 10000000| ≤ 1 / 1000000 := by
  refine ⟨?_, ?_, ?_, ?_⟩
  · rw [tick_some_eq s now v i p ok1 ok2 okStop cm hr hc hpz]
    rw [check_step_advance_energy]
    obtain ⟨db, hlog⟩ := log_sample_shape _
      (integrate_energy (acq_state s v i p) p now).2 v i p
    rw [hlog]
    show (integrate_energy (acq_state s v i p) p now).1.energy = _
    have hst2 : (acq_state s v i p).startTime = some st := by
      rw [(acq_state_proj s v i p).2.2.2.2.1]
      exact hst
    have hlt2 : (acq_state s v i p).lastTime = some lt := by
      rw [(acq_state_proj s v i p).2.2.2.2.2.1]
      exact hlt
    rw [integrate_energy_full _ p now st lt hst2 hlt2]
    show (acq_state s v i p).energy + integrate p (now - lt) = _
    rw [(acq_state_proj s v i p).1]
  · intro pw d h1 h2
    unfold integrate
    rw [if_pos ⟨h1, h2⟩]
  · exact fun pw d h => integrate_invalid pw d h
  · have h1 : integrate 1000 1 = 1 / 3600 := by
      norm_num [integrate]
    rw [h1, abs_le]
    constructor <;> norm_num

/-- Witness for C2: a concrete tick with power 1000 W over a one second
interval adds exactly 1/3600 kWh. -/
theorem energy_integration_guarded_witness :
    (run_update_loop_tick
        { running := true, connected := true, startTime := some 0,
          lastTime := some 0 }
        1 (some (400, 5/2, 1000)) true true true "").energy = 1 / 3600 := by
  have h := (energy_integration_guarded
    { running := true, connected := true, startTime := some 0,
      lastTime := some 0 }
    1 400 (5/2) 1000 0 0 true true true "" rfl rfl rfl rfl rfl).1
  rw [h]
  norm_num [integrate]

/-- C4: on a running, unpaused, connected tick, a failed acquisition in
live mode returns the state entirely unchanged (no abort, no integration,
no logging, no stop check, running still true); in test mode a simulation
failure aborts the run by a stop without a report request and with the
report count unchanged.  A malformed measurement response such as abc
makes the whole live read fail rather than raise. -/
theorem failed_acquisition_tick (s : AppState) (now : ℚ)
    (ok1 ok2 okStop : Bool) (cm : String) (cs ps : Option String)
    (hr : s.running = true) (hc : s.connected = true) (hpz : s.paused = false) :
    (s.testMode = false →
      run_update_loop_tick s now none ok1 ok2 okStop cm = s) ∧
    (s.testMode = true →
      (run_update_loop_tick s now none ok1 ok2 okStop cm).running = false ∧
      (run_update_loop_tick s now none ok1 ok2 okStop cm).reportsGenerated
        = s.reportsGenerated ∧
      (run_update_loop_tick s now none ok1 ok2 okStop cm).stopCalls
        = s.stopCalls ++ [false]) ∧
    fetch_measurements (some "abc") cs ps = none := by
  refine ⟨?_, ?_, ?_⟩
  · intro htm
    unfold run_update_loop_tick
    rw [hr, hc, hpz, htm]
    simp
  · intro htm
    have heq : run_update_loop_tick s now none ok1 ok2 okStop cm =
        stop_discharge false cm okStop s := by
      unfold run_update_loop_tick
      rw [hr, hc, hpz, htm]
      simp
    rw [heq]
    exact ⟨stop_discharge_running false cm okStop s,
      stop_discharge_reports_of_false cm okStop s,
      stop_discharge_stopCalls false cm okStop s⟩
  · have habc : parse_measurement (some "abc") "V" = none := by decide
    unfold fetch_measurements
    rw [habc]

/-- Witness for C4: a live tick with a failed read leaves the concrete
state untouched; a test tick with a failed simulation clears running. -/
theorem failed_acquisition_tick_witness :
    run_update_loop_tick
        { running := true, connected := true, energy := 2,
          currentStep := 0, currentDischargeId := 7 }
        1 none true true true "" =
      { running := true, connected := true, energy := 2,
        currentStep := 0, currentDischargeId := 7 } ∧
    (run_update_loop_tick
        { running := true, connected := true, testMode := true }
        1 none true true true "").running = false := by
  constructor
  · exact (failed_acquisition_tick _ 1 true true true "" none none
      rfl rfl rfl).1 rfl
  · exact ((failed_acquisition_tick _ 1 true true true "" none none
      rfl rfl rfl).2.1 rfl).1

/-- Any single tick leaves the energy unchanged or adds the integrate
increment: with a non-negative power reading the energy cannot
decrease. -/
theorem tick_energy_mono (s : AppState) (now : ℚ) (acq : Option (ℚ × ℚ × ℚ))
    (ok1 ok2 okStop : Bool) (cm : String)
    (hacq : ∀ v i p : ℚ, acq = some (v, i, p) → 0 ≤ p) :
    s.energy ≤ (run_update_loop_tick s now acq ok1 ok2 okStop cm).energy := by
  unfold run_update_loop_tick
  split
  · exact le_refl _
  · split
    · cases acq with
      | none =>
        dsimp only
        split
        · exact le_refl _
        · rw [stop_discharge_energy]
      | some t =>
        obtain ⟨v, ip⟩ := t
        obtain ⟨i, p⟩ := ip
        dsimp only
        rw [check_step_advance_energy]
        have hp : 0 ≤ p := hacq v i p rfl
        obtain ⟨e, hie, hmono⟩ := integrate_energy_shape (acq_state s v i p) p now
        have hle : (log_sample (integrate_energy (acq_state s v i p) p now).1
            (integrate_energy (acq_state s v i p) p now).2 v i p).energy =
            (integrate_energy (acq_state s v i p) p now).1.energy :=
          (log_sample_proj _ _ v i p).2.2.2.2.2
        rw [hle, hie]
        show s.energy ≤ e
        have h1 := hmono hp
        have h2 : (acq_state s v i p).energy = s.energy := (acq_state_proj s v i p).1
        rw [h2] at h1
        exact h1
    · split
      · rw [handle_connection_loss_energy]
      · exact le_refl _

/-- C7 counterexample: the claim fails without a sign hypothesis on the
power reading.  A single valid-interval tick (delta = 1 s) with power
-1000 W drives the cumulative energy strictly below its starting value
0. -/
theorem energy_monotonicity_cex :
    (run_update_loop_tick
        { running := true, connected := true, startTime := some 0,
          lastTime := some 0,
          profile := [{ type := "CC", value := 10, stopValue := 300 }] }
        1 (some (400, -(5/2), -1000)) true true true "").energy < 0 := by
  have h := (energy_integration_guarded
    { running := true, connected := true, startTime := some 0,
      lastTime := some 0,
      profile := [{ type := "CC", value := 10, stopValue := 300 }] }
    1 400 (-(5/2)) (-1000) 0 0 true true true "" rfl rfl rfl rfl rfl).1
  rw [h]
  norm_num [integrate]

/-- C7 amended: across any sequence of ticks, the cumulative energy is
monotonically non-decreasing provided every acquired power reading is
non-negative; anomalous intervals contribute zero, so no hypothesis on
the tick intervals is needed.  (With a negative power reading the energy
can decrease, see the counterexample.) -/
theorem energy_monotone_nonneg_power (s : AppState) (inputs : List TickInput)
    (h : ∀ t ∈ inputs, ∀ v i p : ℚ, t.acq = some (v, i, p) → 0 ≤ p) :
    s.energy ≤ (run_ticks s inputs).energy := by
  induction inputs generalizing s with
  | nil => exact le_refl _
  | cons t ts ih =>
    have h1 := tick_energy_mono s t.now t.acq t.ok1 t.ok2 t.okStop t.comment
      (h t (List.mem_cons_self t ts))
    have h2 := ih (run_update_loop_tick s t.now t.acq t.ok1 t.ok2 t.okStop
      t.comment) (fun t2 ht2 => h t2 (List.mem_cons_of_mem t ht2))
    calc s.energy
        ≤ (run_update_loop_tick s t.now t.acq t.ok1 t.ok2 t.okStop
            t.comment).energy := h1
      _ ≤ (run_ticks (run_update_loop_tick s t.now t.acq t.ok1 t.ok2 t.okStop
            t.comment) ts).energy := h2

/-- Witness for C7: two ticks with positive powers never decrease the
energy of a concrete starting state. -/
theorem energy_monotone_nonneg_power_witness :
    ({ running := true, connected := true, startTime := some 0,
       lastTime := some 0 } : AppState).energy ≤
      (run_ticks
        { running := true, connected := true, startTime := some 0,
          lastTime := some 0 }
        [{ now := 1, acq := some (400, 10, 4000) },
         { now := 2, acq := some (399, 10, 3990) }]).energy := by
  refine energy_monotone_nonneg_power _ _ ?_
  intro t ht v i p heq
  simp only [List.mem_cons, List.not_mem_nil, or_false] at ht
  rcases ht with rfl | rfl <;>
    (simp only [Option.some.injEq, Prod.mk.injEq] at heq
     rw [← heq.2.2]
     norm_num)

/-- C3 counterexample: with auto_reconnect disabled in the configuration,
losing the connection mid-run finalizes the session and stops the run but
schedules no reconnect attempt, so the claim conjunct that a reconnect is
always scheduled is false. -/
theorem connection_loss_no_reconnect_cex :
    (handle_connection_loss
        { running := true, connected := true, testMode := false,
          autoReconnect := false, currentDischargeId := 5,
          energy := 2 }).running = false ∧
    (handle_connection_loss
        { running := true, connected := true, testMode := false,
          autoReconnect := false, currentDischargeId := 5,
          energy := 2 }).finishCalls =
      [(5, 2, "Connection Lost - Incomplete")] ∧
    (handle_connection_loss
        { running := true, connected := true, testMode := false,
          autoReconnect := false, currentDischargeId := 5,
          energy := 2 }).reconnectJob = false := by
  refine ⟨rfl, rfl, rfl⟩

/-- C3 amended: if the connection is lost while a discharge is running in
live mode and a session is open, connection-loss handling clears running
and paused, finalizes the session exactly once with the accumulated energy
and the comment Connection Lost - Incomplete, clears the session id,
generates no report, and — provided auto-reconnect is enabled in the
configuration — leaves a reconnect attempt scheduled. -/
theorem connection_loss_finalizes (s : AppState)
    (htm : s.testMode = false) (hr : s.running = true)
    (hid : s.currentDischargeId ≠ -1) (har : s.autoReconnect = true) :
    (handle_connection_loss s).running = false ∧
    (handle_connection_loss s).paused = false ∧
    (handle_connection_loss s).finishCalls = s.finishCalls ++
      [(s.currentDischargeId, s.energy, "Connection Lost - Incomplete")] ∧
    (handle_connection_loss s).currentDischargeId = -1 ∧
    (handle_connection_loss s).reportsGenerated = s.reportsGenerated ∧
    (handle_connection_loss s).stopCalls = s.stopCalls ∧
    (handle_connection_loss s).reconnectJob = true := by
  unfold handle_connection_loss
  rw [htm]
  simp only [Bool.false_eq_true, if_false]
  have hr2 : ({ s with connected := false } : AppState).running = true := hr
  rw [hr2]
  simp only [if_true]
  have hid2 : ({ s with connected := false, running := false,
                        paused := false } : AppState).currentDischargeId ≠ -1 :=
    hid
  rw [if_pos hid2]
  unfold schedule_reconnect
  dsimp only
  rw [har]
  simp only [Bool.not_true, Bool.or_self, Bool.false_eq_true, if_false]
  by_cases hj : s.reconnectJob
  · rw [if_pos hj]
    exact ⟨rfl, rfl, rfl, rfl, rfl, rfl, hj⟩
  · rw [if_neg hj]
    exact ⟨rfl, rfl, rfl, rfl, rfl, rfl, rfl⟩

/-- Witness for C3: the amended theorem at a concrete mid-run state with
auto-reconnect enabled. -/
theorem connection_loss_finalizes_witness :
    (handle_connection_loss
        { running := true, connected := true, testMode := false,
          autoReconnect := true, currentDischargeId := 9,
          energy := 3 }).finishCalls =
      [(9, 3, "Connection Lost - Incomplete")] ∧
    (handle_connection_loss
        { running := true, connected := true, testMode := false,
          autoReconnect := true, currentDischargeId := 9,
          energy := 3 }).reconnectJob = true := by
  have h := connection_loss_finalizes
    { running := true, connected := true, testMode := false,
      autoReconnect := true, currentDischargeId := 9, energy := 3 }
    rfl rfl (by decide) rfl
  exact ⟨h.2.2.1, h.2.2.2.2.2.2⟩

/-- C8: behavior of apply_profile_step on a running, unpaused state.
Past the last step the run is finalized with a report requested
(stop_discharge with generate_report true).  Within the profile, in live
mode a supported step issues the function command followed by the level
command and keeps running when both succeed; if either command fails, or
the step type is unsupported, the run is stopped without a report
request and the report count is unchanged. -/
theorem apply_profile_step_behavior (s : AppState) (ok1 ok2 okStop : Bool)
    (cm : String) (hr : s.running = true) (hpz : s.paused = false) :
    (s.profile.length ≤ s.currentStep →
      apply_profile_step s ok1 ok2 okStop cm = stop_discharge true cm okStop s ∧
      (apply_profile_step s ok1 ok2 okStop cm).stopCalls = s.stopCalls ++ [true] ∧
      (apply_profile_step s ok1 ok2 okStop cm).running = false) ∧
    (s.currentStep < s.profile.length →
      (strUpper (s.profile.getD s.currentStep defaultStep).type = "CC" ∨
       strUpper (s.profile.getD s.currentStep defaultStep).type = "CP" ∨
       strUpper (s.profile.getD s.currentStep defaultStep).type = "CV") →
      s.testMode = false → s.connected = true →
      ((ok1 = true → ok2 = true →
        (apply_profile_step s ok1 ok2 okStop cm).sentCmds = s.sentCmds ++
          [funcCmd (strUpper (s.profile.getD s.currentStep defaultStep).type),
           levelCmd (strUpper (s.profile.getD s.currentStep defaultStep).type)
             (s.profile.getD s.currentStep defaultStep).value] ∧
        (apply_profile_step s ok1 ok2 okStop cm).running = true ∧
        (apply_profile_step s ok1 ok2 okStop cm).stopCalls = s.stopCalls) ∧
       ((ok1 = false ∨ ok2 = false) →
        (apply_profile_step s ok1 ok2 okStop cm).running = false ∧
        (apply_profile_step s ok1 ok2 okStop cm).reportsGenerated
          = s.reportsGenerated ∧
        (apply_profile_step s ok1 ok2 okStop cm).stopCalls
          = s.stopCalls ++ [false]))) ∧
    (s.currentStep < s.profile.length →
      ¬ (strUpper (s.profile.getD s.currentStep defaultStep).type = "CC" ∨
         strUpper (s.profile.getD s.currentStep defaultStep).type = "CP" ∨
         strUpper (s.profile.getD s.currentStep defaultStep).type = "CV") →
      (apply_profile_step s ok1 ok2 okStop cm).running = false ∧
      (apply_profile_step s ok1 ok2 okStop cm).reportsGenerated
        = s.reportsGenerated ∧
      (apply_profile_step s ok1 ok2 okStop cm).stopCalls
        = s.stopCalls ++ [false]) := by
  refine ⟨?_, ?_, ?_⟩
  · intro hlen
    have heq : apply_profile_step s ok1 ok2 okStop cm =
        stop_discharge true cm okStop s := by
      unfold apply_profile_step
      simp only [hr, hpz, Bool.not_true, Bool.or_false, Bool.false_eq_true,
        if_false]
      rw [if_pos hlen]
    refine ⟨heq, ?_, ?_⟩
    · rw [heq, stop_discharge_stopCalls]
    · rw [heq, stop_discharge_running]
  · intro hlen2 hty htm hc
    have hguard : apply_profile_step s ok1 ok2 okStop cm =
        (let t := strUpper (s.profile.getD s.currentStep defaultStep).type
         let r1 := scpi_command (funcCmd t) ok1 s
         let r2 := scpi_command
           (levelCmd t (s.profile.getD s.currentStep defaultStep).value) ok2 r1.1
         if r1.2 && r2.2 then r2.1
         else if !r2.1.testMode then stop_discharge false cm okStop r2.1
         else r2.1) := by
      unfold apply_profile_step
      simp only [hr, hpz, Bool.not_true, Bool.or_false, Bool.false_eq_true,
        if_false]
      rw [if_neg (not_le.mpr hlen2)]
      try dsimp only
      rw [if_pos hty]
    constructor
    · intro hok1 hok2
      subst hok1
      subst hok2
      rw [hguard]
      try dsimp only
      rw [scpi_command_live _ true s htm hc]
      simp only [if_true]
      rw [scpi_command_live _ true
        { s with sentCmds := s.sentCmds ++
            [funcCmd (strUpper (s.profile.getD s.currentStep defaultStep).type)] }
        htm hc]
      simp only [if_true, Bool.and_self]
      refine ⟨?_, ?_, ?_⟩
      · simp [List.append_assoc]
      · exact hr
      · trivial
    · intro hfail
      rcases hfail with hok1 | hok2
      · subst hok1
        rw [hguard]
        try dsimp only
        rw [scpi_command_live _ false s htm hc]
        simp only [Bool.false_eq_true, if_false]
        have hT : (handle_connection_loss
            { s with sentCmds := s.sentCmds ++
                [funcCmd (strUpper
                  (s.profile.getD s.currentStep defaultStep).type)] }).testMode
            = false := by
          rw [handle_connection_loss_testMode]
          exact htm
        have hC : (handle_connection_loss
            { s with sentCmds := s.sentCmds ++
                [funcCmd (strUpper
                  (s.profile.getD s.currentStep defaultStep).type)] }).connected
            = false := handle_connection_loss_connected _ htm
        rw [scpi_command_disconnected _ ok2 _ hT hC]
        simp only [Bool.false_and, Bool.false_eq_true, if_false, hT,
          Bool.not_false, if_true]
        refine ⟨stop_discharge_running _ _ _ _, ?_, ?_⟩
        · rw [stop_discharge_reports_of_false,
            handle_connection_loss_reportsGenerated]
        · rw [stop_discharge_stopCalls, handle_connection_loss_stopCalls]
      · subst hok2
        rw [hguard]
        try dsimp only
        rw [scpi_command_live _ ok1 s htm hc]
        by_cases hok1 : ok1 = true
        · subst hok1
          simp only [if_true]
          rw [scpi_command_live _ false
            { s with sentCmds := s.sentCmds ++
                [funcCmd (strUpper
                  (s.profile.getD s.currentStep defaultStep).type)] }
            htm hc]
          simp only [Bool.false_eq_true, if_false, Bool.and_false]
          have hT : (handle_connection_loss
              { s with sentCmds := (s.sentCmds ++
                  [funcCmd (strUpper
                    (s.profile.getD s.currentStep defaultStep).type)]) ++
                  [levelCmd (strUpper
                      (s.profile.getD s.currentStep defaultStep).type)
                    (s.profile.getD s.currentStep defaultStep).value] }).testMode
              = false := by
            rw [handle_connection_loss_testMode]
            exact htm
          rw [hT]
          simp only [Bool.not_false, if_true]
          refine ⟨stop_discharge_running _ _ _ _, ?_, ?_⟩
          · rw [stop_discharge_reports_of_false,
              handle_connection_loss_reportsGenerated]
          · rw [stop_discharge_stopCalls, handle_connection_loss_stopCalls]
        · have hok1f : ok1 = false := by
            cases ok1
            · rfl
            · exact absurd rfl hok1
          subst hok1f
          simp only [Bool.false_eq_true, if_false]
          have hT : (handle_connection_loss
              { s with sentCmds := s.sentCmds ++
                  [funcCmd (strUpper
                    (s.profile.getD s.currentStep defaultStep).type)] }).testMode
              = false := by
            rw [handle_connection_loss_testMode]
            exact htm
          have hC : (handle_connection_loss
              { s with sentCmds := s.sentCmds ++
                  [funcCmd (strUpper
                    (s.profile.getD s.currentStep defaultStep).type)] }).connected
              = false := handle_connection_loss_connected _ htm
          rw [scpi_command_disconnected _ false _ hT hC]
          simp only [Bool.false_and, Bool.false_eq_true, if_false, hT,
            Bool.not_false, if_true]
          refine ⟨stop_discharge_running _ _ _ _, ?_, ?_⟩
          · rw [stop_discharge_reports_of_false,
              handle_connection_loss_reportsGenerated]
          · rw [stop_discharge_stopCalls, handle_connection_loss_stopCalls]
  · intro hlen2 hty
    have heq : apply_profile_step s ok1 ok2 okStop cm =
        stop_discharge false cm okStop s := by
      unfold apply_profile_step
      simp only [hr, hpz, Bool.not_true, Bool.or_false, Bool.false_eq_true,
        if_false]
      rw [if_neg (not_le.mpr hlen2)]
      try dsimp only
      rw [if_neg hty]
    rw [heq]
    exact ⟨stop_discharge_running _ _ _ _, stop_discharge_reports_of_false _ _ _,
      stop_discharge_stopCalls _ _ _ _⟩

/-- Witness for C8: with the profile exhausted, a concrete apply call
stops with a report request; a supported CC step with both commands
succeeding sends the function and level commands in order and keeps
running; a failed first command stops the run without a report. -/
theorem apply_profile_step_behavior_witness :
    (apply_profile_step
        { running := true, connected := true, currentStep := 1,
          profile := [{ type := "CC", value := 10, stopValue := 300 }] }
        true true true "").stopCalls = [true] ∧
    (apply_profile_step
        { running := true, connected := true, currentStep := 0,
          profile := [{ type := "CC", value := 10, stopValue := 300 }] }
        true true true "").sentCmds =
      [funcCmd "CC", levelCmd "CC" 10] ∧
    (apply_profile_step
        { running := true, connected := true, currentStep := 0,
          profile := [{ type := "CC", value := 10, stopValue := 300 }] }
        false true true "").running = false := by
  refine ⟨?_, ?_, ?_⟩
  · exact ((apply_profile_step_behavior
      { running := true, connected := true, currentStep := 1,
        profile := [{ type := "CC", value := 10, stopValue := 300 }] }
      true true true "" rfl rfl).1 (by decide)).2.1
  · have h := (((apply_profile_step_behavior
      { running := true, connected := true, currentStep := 0,
        profile := [{ type := "CC", value := 10, stopValue := 300 }] }
      true true true "" rfl rfl).2.1
      (by decide) (by decide) rfl rfl).1 rfl rfl).1
    rw [h]
    decide
  · exact (((apply_profile_step_behavior
      { running := true, connected := true, currentStep := 0,
        profile := [{ type := "CC", value := 10, stopValue := 300 }] }
      false true true "" rfl rfl).2.1
      (by decide) (by decide) rfl rfl).2 (Or.inl rfl)).1

/-- C9: a reconnect attempt never re-enters the running state by itself:
the deferred reconnect job preserves the running flag (so a run stopped by
the loss stays stopped), a successful reconnect while a profile is mid-run
only sets resume_available, and running can become true again only through
the explicit resume operation with a positive confirmation while
resume_available is set. -/
theorem reconnect_no_autoresume (s : AppState) (ok confirm : Bool) (now : ℚ)
    (ok1 ok2 okStop okState : Bool) (cm : String) :
    (reconnect_tick s ok).running = s.running ∧
    (s.connected = false → s.profile ≠ [] →
      s.currentStep < s.profile.length →
      (reconnect_tick s true).resumeAvailable = true) ∧
    (s.running = false →
      (resume_after_reconnect s confirm now ok1 ok2 okStop okState cm).running
        = true →
      confirm = true ∧ s.resumeAvailable = true) := by
  refine ⟨?_, ?_, ?_⟩
  · unfold reconnect_tick
    dsimp only
    split
    · rfl
    · split
      · split <;> rfl
      · rw [schedule_reconnect_running]
  · intro hc hp1 hp2
    unfold reconnect_tick
    dsimp only
    rw [if_neg (by rw [hc]; exact Bool.false_ne_true), if_pos rfl,
      if_pos ⟨hp1, hp2⟩]
  · intro hrun hres
    unfold resume_after_reconnect at hres
    by_cases hg1 : (!s.resumeAvailable || !s.connected) = true
    · rw [if_pos hg1] at hres
      rw [hrun] at hres
      exact absurd hres Bool.false_ne_true
    · rw [if_neg hg1] at hres
      have hra : s.resumeAvailable = true := by
        cases hx : s.resumeAvailable
        · exfalso
          apply hg1
          rw [hx]
          rfl
        · rfl
      rw [if_neg (by rw [hrun]; exact Bool.false_ne_true)] at hres
      by_cases hcf : confirm = true
      · exact ⟨hcf, hra⟩
      · have hcff : confirm = false := by
          cases confirm
          · rfl
          · exact absurd rfl hcf
        rw [hcff] at hres
        simp only [Bool.not_false, if_true] at hres
        rw [hrun] at hres
        exact absurd hres Bool.false_ne_true

/-- Witness for C9: on a concrete disconnected mid-run state, the
reconnect job leaves running false and sets resume_available; resume
without confirmation keeps running false. -/
theorem reconnect_no_autoresume_witness :
    (reconnect_tick
        { running := false, connected := false, currentStep := 0,
          profile := [{ type := "CC", value := 10, stopValue := 300 }],
          autoReconnect := true }
        true).running = false ∧
    (reconnect_tick
        { running := false, connected := false, currentStep := 0,
          profile := [{ type := "CC", value := 10, stopValue := 300 }],
          autoReconnect := true }
        true).resumeAvailable = true ∧
    ((resume_after_reconnect
        { running := false, connected := true, resumeAvailable := true,
          profile := [{ type := "CC", value := 10, stopValue := 300 }] }
        true 0 true true true true "").running = true →
      (true : Bool) = true) := by
  refine ⟨?_, ?_, ?_⟩
  · exact (reconnect_no_autoresume
      { running := false, connected := false, currentStep := 0,
        profile := [{ type := "CC", value := 10, stopValue := 300 }],
        autoReconnect := true }
      true true 0 true true true true "").1
  · exact (reconnect_no_autoresume
      { running := false, connected := false, currentStep := 0,
        profile := [{ type := "CC", value := 10, stopValue := 300 }],
        autoReconnect := true }
      true true 0 true true true true "").2.1 rfl (by decide) (by decide)
  · intro hres
    exact ((reconnect_no_autoresume
      { running := false, connected := true, resumeAvailable := true,
        profile := [{ type := "CC", value := 10, stopValue := 300 }] }
      true true 0 true true true true "").2.2 rfl hres).1

/-- C6: step migration is deterministic and idempotent.  A legacy step
(no stop_condition_type) migrates to stop condition current 0.1 when its
type uppercases to CV, and to voltage with the original stop_voltage value
(0.0 when absent) otherwise; a step that already carries a
stop_condition_type is returned unchanged; migrating twice equals
migrating once. -/
theorem migrate_profile_step_spec (s : RawStep) :
    (s.stop_condition_type.isSome → migrate_profile_step s = s) ∧
    (s.stop_condition_type = none → strUpper (s.type.getD "CC") = "CV" →
      (migrate_profile_step s).stop_condition_type = some "current" ∧
      (migrate_profile_step s).stop_condition_value = some (1/10)) ∧
    (s.stop_condition_type = none → strUpper (s.type.getD "CC") ≠ "CV" →
      (migrate_profile_step s).stop_condition_type = some "voltage" ∧
      (migrate_profile_step s).stop_condition_value = some (s.stop_voltage.getD 0)) ∧
    migrate_profile_step (migrate_profile_step s) = migrate_profile_step s := by
  refine ⟨?_, ?_, ?_, ?_⟩
  · intro h
    simp [migrate_profile_step, h]
  · intro h hcv
    cases hsv : s.stop_voltage <;>
      simp [migrate_profile_step, h, hcv, hsv]
  · intro h hcv
    cases hsv : s.stop_voltage <;>
      simp [migrate_profile_step, h, hcv, hsv]
  · by_cases h : s.stop_condition_type.isSome
    · simp [migrate_profile_step, h]
    · have h0 : s.stop_condition_type = none := by
        cases hc : s.stop_condition_type
        · rfl
        · exact absurd (by simp [hc]) h
      by_cases hcv : strUpper (s.type.getD "CC") = "CV" <;>
        cases hsv : s.stop_voltage <;>
          simp [migrate_profile_step, h0, hcv, hsv]

/-- Witness for C6: a concrete legacy CC step with stop_voltage 350 gains
stop condition voltage 350; a concrete legacy CV step gains stop condition
current 0.1; an already migrated step is unchanged. -/
theorem migrate_profile_step_spec_witness :
    (migrate_profile_step { type := some "CC", value := some 10,
                            stop_voltage := some 350 }).stop_condition_type
      = some "voltage" ∧
    (migrate_profile_step { type := some "CC", value := some 10,
                            stop_voltage := some 350 }).stop_condition_value
      = some 350 ∧
    (migrate_profile_step { type := some "CV", value := some 380 }).stop_condition_type
      = some "current" ∧
    migrate_profile_step { type := some "CC", value := some 10,
                           stop_condition_type := some "voltage",
                           stop_condition_value := some 350 }
      = { type := some "CC", value := some 10,
          stop_condition_type := some "voltage", stop_condition_value := some 350 } := by
  refine ⟨?_, ?_, ?_, ?_⟩
  · have h := (migrate_profile_step_spec
      { type := some "CC", value := some 10, stop_voltage := some 350 }).2.2.1
      rfl (by decide)
    simpa using h.1
  · have h := (migrate_profile_step_spec
      { type := some "CC", value := some 10, stop_voltage := some 350 }).2.2.1
      rfl (by decide)
    simpa using h.2
  · have h := (migrate_profile_step_spec
      { type := some "CV", value := some 380 }).2.1 rfl (by decide)
    exact h.1
  · exact (migrate_profile_step_spec _).1 (by decide)

/-- C10: persistence guards.  start_new_discharge returns the sentinel -1
and leaves the database unchanged when session creation fails, and for
every negative discharge_id both log_data_point and finish_discharge
return the database unchanged, performing no write. -/
theorem db_sentinel_guards (db : DBState) (reg profile mode : String)
    (discharge_id : Int) (elapsed v c p energy : ℚ) (comment : String)
    (ok : Bool) (hneg : discharge_id < 0) :
    start_new_discharge db false reg profile mode = (db, -1) ∧
    log_data_point db discharge_id elapsed v c p ok = db ∧
    finish_discharge db discharge_id energy comment ok = db := by
  refine ⟨rfl, ?_, ?_⟩
  · simp [log_data_point, hneg]
  · simp [finish_discharge, hneg]

/-- Witness for C10: the guards at the concrete sentinel id -1 on an empty
database. -/
theorem db_sentinel_guards_witness :
    start_new_discharge {} false "r" "p" "Real" = ({}, -1) ∧
    log_data_point {} (-1) 0 0 0 0 true = {} ∧
    finish_discharge {} (-1) 0 "c" true = {} :=
  db_sentinel_guards {} "r" "p" "Real" (-1) 0 0 0 0 0 "c" true (by decide)

end HVDischarge
